import Mathlib

/-!
Verification of `SimpleAssetLibraryBPLibrary.cpp` (bralkor/unreal_asset_library).

The four library functions are shallowly embedded as pure Lean functions over
an explicit environment `Env` capturing the engine collaborators each call
consults (package existence on disk, live thumbnail generation, transient
texture allocation, cached thumbnail lookup).  Each thumbnail function returns
`Option` of its outcome — `none` models the crash on the unchecked
`FObjectThumbnail*` dereference — together with a trace of the engine calls it
performed, so that fallback ordering and skipped steps are statable.
-/

/-- A thumbnail: width, height (signed, as the source uses `int32` and checks
for non-positive values).  The pixel buffer plays no role in any claim and is
omitted. -/
structure Thumbnail where
  width : Int
  height : Int
deriving DecidableEq

/-- What ends up bound to the dynamic material's "texture" parameter. -/
inductive Bound where
  /-- the freshly generated transient texture, populated from thumbnail `t` -/
  | generated (t : Thumbnail)
  /-- the texture decoded from the package's cached thumbnail `t` -/
  | cachedTex (t : Thumbnail)
  /-- the caller-supplied `DefaultTexture` -/
  | defaultTex
deriving DecidableEq

/-- The engine calls the functions can make, recorded in order. -/
inductive Call where
  /-- `FPackageName::DoesPackageExist` -/
  | checkExists
  /-- `ThumbnailTools::GenerateThumbnailForObjectToSaveToDisk` -/
  | generate
  /-- `UTexture2D::CreateTransient(w, h, PF_B8G8R8A8)` -/
  | createTransient (w h : Int)
  /-- `ThumbnailTools::LoadThumbnailsFromPackage` + `ThumbnailMap.Find` -/
  | loadCached
  /-- `SetTextureParameterValue("texture", ...)` with the generated texture -/
  | bindGenerated
  /-- `SetTextureParameterValue("texture", ...)` with the cached texture -/
  | bindCached
  /-- `SetTextureParameterValue("texture", ...)` with the default texture -/
  | bindDefault
deriving DecidableEq

/-- The kind of an engine call, forgetting arguments (used to state ordering
and multiplicity of the fallback steps). -/
inductive CallKind where
  | checkE | gen | create | load | bindG | bindC | bindD
deriving DecidableEq

/-- Map a call to its kind. -/
def Call.kind : Call → CallKind
  | .checkExists => .checkE
  | .generate => .gen
  | .createTransient _ _ => .create
  | .loadCached => .load
  | .bindGenerated => .bindG
  | .bindCached => .bindC
  | .bindDefault => .bindD

/-- Is this call kind a `SetTextureParameterValue` binding? -/
def CallKind.isBind : CallKind → Bool
  | .bindG => true
  | .bindC => true
  | .bindD => true
  | _ => false

/-- The engine state an invocation runs against.  Fixed for the duration of a
call (and across the two calls of the idempotence claim: "no intervening
change to storage or engine state"). -/
structure Env where
  /-- `AssetData.PackageName.ToString()` -/
  packageName : String
  /-- result of `FPackageName::DoesPackageExist` for this package -/
  packageExists : Bool
  /-- result of `ThumbnailTools::GenerateThumbnailForObjectToSaveToDisk`
  (`none` = null pointer) -/
  genThumb : Option Thumbnail
  /-- whether `UTexture2D::CreateTransient(w, h, PF_B8G8R8A8)` returns
  non-null, as a function of the requested dimensions -/
  allocOk : Int → Int → Bool
  /-- result of `ThumbnailMap.Find(ObjectFullName)` after
  `LoadThumbnailsFromPackage` (`none` = null pointer: thumbnail not cached) -/
  cachedThumb : Option Thumbnail
  /-- dimensions of the caller-supplied `DefaultTexture` (never read by the
  source; carried to state claims about them) -/
  defaultWidth : Int
  defaultHeight : Int

/-- Outcome of a call: the final values of the three by-reference outputs
`ImageWidth`, `ImageHeight`, `IsValid`, and what got bound to the material. -/
structure RenderOut where
  imageWidth : Int
  imageHeight : Int
  isValid : Bool
  bound : Bound
deriving DecidableEq

/-- Lines 211-246 of `RenderAssetThumbnailToDynamicMaterial`: the cached
thumbnail fallback and the final default-texture fallback.  `w`, `h`, `v` are
the current values of the by-reference outputs on entry.  `none` models the
unchecked dereference of `ThumbnailMap.Find`'s result when the package file
holds no cached thumbnail for the object (lines 221/226). -/
def cachedFallback (env : Env) (w h : Int) (v : Bool) :
    Option RenderOut × List Call :=
  if env.packageName ≠ "None" then
    if env.packageExists then
      match env.cachedThumb with
      | none => (none, [Call.checkExists, Call.loadCached])
      | some t =>
          (some ⟨t.width, t.height, true, Bound.cachedTex t⟩,
           [Call.checkExists, Call.loadCached, Call.bindCached])
    else
      (some ⟨w, h, v, Bound.defaultTex⟩, [Call.checkExists, Call.bindDefault])
  else
    (some ⟨w, h, v, Bound.defaultTex⟩, [Call.bindDefault])

/-- `USimpleAssetLibraryBPLibrary::RenderAssetThumbnailToDynamicMaterial`
(lines 143-246).  `w0`, `h0`, `v0` are the caller-passed values of the
by-reference outputs `ImageWidth`, `ImageHeight`, `IsValid` (the source
overwrites `IsValid` at line 161 before reading it, so `v0` is dead there,
exactly as in the source). -/
def RenderAssetThumbnailToDynamicMaterial (env : Env) (w0 h0 : Int)
    (_v0 : Bool) : Option RenderOut × List Call :=
  -- line 161: IsValid = false; lines 166-169: existence check
  if env.packageName ≠ "None" then
    if env.packageExists then
      -- lines 173-208: IsValid is true, attempt to generate the thumbnail
      match env.genThumb with
      | none =>
          -- thumb null: dims stay 0,0, forced to 1,1 and IsValid = false
          -- (lines 181-185); CreateTransient(1, 1) still runs (line 188)
          let (r, t2) := cachedFallback env 1 1 false
          (r, Call.checkExists :: Call.generate :: Call.createTransient 1 1
                :: t2)
      | some t =>
          if t.width < 1 ∨ t.height < 1 then
            let (r, t2) := cachedFallback env 1 1 false
            (r, Call.checkExists :: Call.generate :: Call.createTransient 1 1
                  :: t2)
          else
            if env.allocOk t.width t.height then
              -- lines 194-206: populate the transient texture, bind, return
              (some ⟨t.width, t.height, true, Bound.generated t⟩,
               [Call.checkExists, Call.generate,
                Call.createTransient t.width t.height, Call.bindGenerated])
            else
              -- lines 189-191: allocation failed, IsValid = false
              let (r, t2) := cachedFallback env t.width t.height false
              (r, Call.checkExists :: Call.generate
                    :: Call.createTransient t.width t.height :: t2)
    else
      -- package does not exist: generation block skipped entirely
      let (r, t2) := cachedFallback env w0 h0 false
      (r, Call.checkExists :: t2)
  else
    let (r, t2) := cachedFallback env w0 h0 false
    (r, t2)

/-- `USimpleAssetLibraryBPLibrary::AddExistingAssetThumbnailToDynamicMaterial`
(lines 95-141).  The source never assigns `IsValid` in this function, so the
output keeps the caller's `v0`; likewise `ImageWidth`/`ImageHeight` keep
`w0`/`h0` on the default-texture path. -/
def AddExistingAssetThumbnailToDynamicMaterial (env : Env) (w0 h0 : Int)
    (v0 : Bool) : Option RenderOut × List Call :=
  if env.packageName ≠ "None" then
    if env.packageExists then
      match env.cachedThumb with
      | none => (none, [Call.checkExists, Call.loadCached])
      | some t =>
          (some ⟨t.width, t.height, v0, Bound.cachedTex t⟩,
           [Call.checkExists, Call.loadCached, Call.bindCached])
    else
      (some ⟨w0, h0, v0, Bound.defaultTex⟩,
       [Call.checkExists, Call.bindDefault])
  else
    (some ⟨w0, h0, v0, Bound.defaultTex⟩, [Call.bindDefault])

/-- An `FName`, as the source only consults its string form. -/
abbrev FName := String

/-- `FName::IsNone()`: the name is the reserved "None". -/
def FName.isNone (t : FName) : Bool := t = "None"

/-- `USimpleAssetLibraryBPLibrary::RegisterMetadataTags` (lines 79-93): fold
the loop body over the input tags, threading the global tag set
(`UObject::GetMetaDataTagsForAssetRegistry()`), modelled as a list. -/
def RegisterMetadataTags (tags : List FName) (global : List FName) :
    List FName :=
  tags.foldl (fun g tag => if ¬ tag.isNone ∧ tag ∉ g then g ++ [tag] else g)
    global

/-- A world-space vector, opaque data for this development. -/
structure Vec3 where
  x : Int
  y : Int
  z : Int
deriving DecidableEq

/-- A computed scene view: all we use of it is the deprojection of the
viewport mouse position (line 69). -/
structure SceneView where
  deprojOrigin : Vec3
  deprojDir : Vec3
deriving DecidableEq

/-- A level editor viewport client, as consulted by the loop at lines 49-73:
whether its viewport widget is the widget under the mouse, and the result of
`CalcSceneView` (`none` = null). -/
structure VPClient where
  widgetMatches : Bool
  sceneView : Option SceneView
deriving DecidableEq

/-- The slate/editor state `GetEditorViewportMousePositionWS` runs against. -/
structure ViewportEnv where
  /-- `GetTypeAsString()` of the last widget under the mouse -/
  widgetType : String
  /-- `GEditor->GetLevelViewportClients()` in order -/
  clients : List VPClient

/-- The loop over level editor viewport clients (lines 49-73): the first
client whose widget is under the mouse and whose `CalcSceneView` is non-null
wins; a matching client with a null scene view is skipped and the loop
continues. -/
def viewportLoop (clients : List VPClient) (o0 d0 : Vec3) :
    Bool × Vec3 × Vec3 :=
  match clients with
  | [] => (false, o0, d0)
  | c :: rest =>
      if c.widgetMatches then
        match c.sceneView with
        | some sv => (true, sv.deprojOrigin, sv.deprojDir)
        | none => viewportLoop rest o0 d0
      else viewportLoop rest o0 d0

/-- `USimpleAssetLibraryBPLibrary::GetEditorViewportMousePositionWS`
(lines 33-77).  `o0`, `d0` are the caller-passed values of the by-reference
outputs `WorldOrigin`, `WorldDirection`. -/
def GetEditorViewportMousePositionWS (env : ViewportEnv) (o0 d0 : Vec3) :
    Bool × Vec3 × Vec3 :=
  if env.widgetType ≠ "SViewport" then (false, o0, d0)
  else viewportLoop env.clients o0 d0

/-- Generation "failed" in the sense of lines 177-185: null thumbnail or
non-positive dimensions. -/
def genFail (env : Env) : Prop :=
  env.genThumb = none ∨
    ∃ t, env.genThumb = some t ∧ (t.width < 1 ∨ t.height < 1)

/-- The engine-call trace of a `RenderAssetThumbnailToDynamicMaterial`
invocation, with call arguments forgotten. -/
def renderTrace (env : Env) (w0 h0 : Int) (v0 : Bool) : List CallKind :=
  (RenderAssetThumbnailToDynamicMaterial env w0 h0 v0).2.map Call.kind

/-- The outcome of a `RenderAssetThumbnailToDynamicMaterial` invocation
(`none` = the null-dereference crash). -/
def renderResult (env : Env) (w0 h0 : Int) (v0 : Bool) : Option RenderOut :=
  (RenderAssetThumbnailToDynamicMaterial env w0 h0 v0).1

/-- An asset whose package exists, whose live generation succeeds at 128x128,
whose allocation succeeds, and whose package carries a 32x32 cached
thumbnail; the default texture is 64x64. -/
def envGen : Env :=
  ⟨"A", true, some ⟨128, 128⟩, fun _ _ => true, some ⟨32, 32⟩, 64, 64⟩

/-- An asset whose package exists but whose live generation returns a null
thumbnail, while a 32x32 cached thumbnail is available. -/
def envGenFailCached : Env :=
  ⟨"A", true, none, fun _ _ => true, some ⟨32, 32⟩, 64, 64⟩

/-- An asset whose package exists, whose live generation returns a null
thumbnail, and whose package carries no cached thumbnail for the object. -/
def envCrash : Env := ⟨"A", true, none, fun _ _ => true, none, 64, 64⟩

/-- An asset that does not exist in storage; the default texture is 64x64. -/
def envMissing : Env := ⟨"A", false, none, fun _ _ => true, none, 64, 64⟩

/-- A concrete editor state: the mouse is over an `SViewport`, the first
client's widget is not under the mouse, the second matches but has no scene
view, the third matches and yields a scene view. -/
def vpEnvHit : ViewportEnv :=
  ⟨"SViewport",
   [⟨false, none⟩, ⟨true, none⟩, ⟨true, some ⟨⟨1, 2, 3⟩, ⟨4, 5, 6⟩⟩⟩]⟩

/-- Exhaustive case analysis of `RenderAssetThumbnailToDynamicMaterial`:
every invocation lands in exactly one of seven shapes (no-name, missing
package, generation failure with cache miss / cache hit, generation success,
allocation failure with cache miss / cache hit), with its outcome and trace
spelled out. -/
theorem render_cases (env : Env) (w0 h0 : Int) (v0 : Bool) :
    (env.packageName = "None" ∧
      RenderAssetThumbnailToDynamicMaterial env w0 h0 v0 =
        (some ⟨w0, h0, false, .defaultTex⟩, [.bindDefault])) ∨
    (env.packageName ≠ "None" ∧ env.packageExists = false ∧
      RenderAssetThumbnailToDynamicMaterial env w0 h0 v0 =
        (some ⟨w0, h0, false, .defaultTex⟩,
         [.checkExists, .checkExists, .bindDefault])) ∨
    (env.packageName ≠ "None" ∧ env.packageExists = true ∧ genFail env ∧
      env.cachedThumb = none ∧
      RenderAssetThumbnailToDynamicMaterial env w0 h0 v0 =
        (none, [.checkExists, .generate, .createTransient 1 1,
                .checkExists, .loadCached])) ∨
    (env.packageName ≠ "None" ∧ env.packageExists = true ∧ genFail env ∧
      ∃ c, env.cachedThumb = some c ∧
      RenderAssetThumbnailToDynamicMaterial env w0 h0 v0 =
        (some ⟨c.width, c.height, true, .cachedTex c⟩,
         [.checkExists, .generate, .createTransient 1 1,
          .checkExists, .loadCached, .bindCached])) ∨
    (env.packageName ≠ "None" ∧ env.packageExists = true ∧
      ∃ t, env.genThumb = some t ∧ 1 ≤ t.width ∧ 1 ≤ t.height ∧
        env.allocOk t.width t.height = true ∧
        RenderAssetThumbnailToDynamicMaterial env w0 h0 v0 =
          (some ⟨t.width, t.height, true, .generated t⟩,
           [.checkExists, .generate, .createTransient t.width t.height,
            .bindGenerated])) ∨
    (env.packageName ≠ "None" ∧ env.packageExists = true ∧
      ∃ t, env.genThumb = some t ∧ 1 ≤ t.width ∧ 1 ≤ t.height ∧
        env.allocOk t.width t.height = false ∧ env.cachedThumb = none ∧
        RenderAssetThumbnailToDynamicMaterial env w0 h0 v0 =
          (none, [.checkExists, .generate,
                  .createTransient t.width t.height,
                  .checkExists, .loadCached])) ∨
    (env.packageName ≠ "None" ∧ env.packageExists = true ∧
      ∃ t, env.genThumb = some t ∧ 1 ≤ t.width ∧ 1 ≤ t.height ∧
        env.allocOk t.width t.height = false ∧
        ∃ c, env.cachedThumb = some c ∧
        RenderAssetThumbnailToDynamicMaterial env w0 h0 v0 =
          (some ⟨c.width, c.height, true, .cachedTex c⟩,
           [.checkExists, .generate, .createTransient t.width t.height,
            .checkExists, .loadCached, .bindCached])) := by
  obtain ⟨pn, pe, gt, ao, ct, dw, dh⟩ := env
  by_cases hpn : pn = "None"
  · left
    simp [RenderAssetThumbnailToDynamicMaterial, cachedFallback, hpn]
  · cases pe
    · right; left
      simp [RenderAssetThumbnailToDynamicMaterial, cachedFallback, hpn]
    · rcases gt with _ | t
      · rcases ct with _ | c
        · right; right; left
          simp [RenderAssetThumbnailToDynamicMaterial, cachedFallback, hpn,
            genFail]
        · right; right; right; left
          simp [RenderAssetThumbnailToDynamicMaterial, cachedFallback, hpn,
            genFail]
      · by_cases hdim : t.width < 1 ∨ t.height < 1
        · rcases ct with _ | c
          · right; right; left
            simp [RenderAssetThumbnailToDynamicMaterial, cachedFallback, hpn,
              genFail, hdim]
          · right; right; right; left
            simp [RenderAssetThumbnailToDynamicMaterial, cachedFallback, hpn,
              genFail, hdim]
        · push_neg at hdim
          cases hao : ao t.width t.height
          · rcases ct with _ | c
            · right; right; right; right; right; left
              simp [RenderAssetThumbnailToDynamicMaterial, cachedFallback,
                hpn, hdim, hao, not_or]
            · right; right; right; right; right; right
              simp [RenderAssetThumbnailToDynamicMaterial, cachedFallback,
                hpn, hdim, hao, not_or]
          · right; right; right; right; left
            simp [RenderAssetThumbnailToDynamicMaterial, cachedFallback,
              hpn, hdim, hao, not_or]

/-- Claim C1: the function follows a linear forward-only fallback chain.  The
engine-call trace is always a sublist of the canonical forward order
(existence check, generate, allocate, bind generated, re-check existence,
cached lookup, bind cached, bind default), at most one texture is ever bound,
a failed storage-existence check skips the regeneration step and goes to the
cached path, which re-checks existence (second `checkE`) before dropping to
the default texture, an existing package never reaches the default texture,
going past the generated bind always reaches the cached lookup, and success
at the generation step is terminal (no later step is visited). -/
theorem C1_fallback_chain (env : Env) (w0 h0 : Int) (v0 : Bool) :
    (renderTrace env w0 h0 v0).Sublist
      [.checkE, .gen, .create, .bindG, .checkE, .load, .bindC, .bindD] ∧
    ((renderTrace env w0 h0 v0).filter CallKind.isBind).length ≤ 1 ∧
    (¬ (env.packageName ≠ "None" ∧ env.packageExists = true) →
      CallKind.gen ∉ renderTrace env w0 h0 v0 ∧
      renderResult env w0 h0 v0 = some ⟨w0, h0, false, .defaultTex⟩ ∧
      (env.packageName ≠ "None" →
        renderTrace env w0 h0 v0 = [.checkE, .checkE, .bindD])) ∧
    (env.packageName ≠ "None" → env.packageExists = true →
      CallKind.bindD ∉ renderTrace env w0 h0 v0 ∧
      (CallKind.bindG ∉ renderTrace env w0 h0 v0 →
        CallKind.load ∈ renderTrace env w0 h0 v0)) ∧
    (CallKind.bindG ∈ renderTrace env w0 h0 v0 →
      CallKind.load ∉ renderTrace env w0 h0 v0 ∧
      CallKind.bindC ∉ renderTrace env w0 h0 v0 ∧
      CallKind.bindD ∉ renderTrace env w0 h0 v0 ∧
      (renderResult env w0 h0 v0).isSome = true) ∧
    (CallKind.bindC ∈ renderTrace env w0 h0 v0 →
      CallKind.bindD ∉ renderTrace env w0 h0 v0) := by
  rcases render_cases env w0 h0 v0 with
    ⟨h1, hR⟩ | ⟨h1, h2, hR⟩ | ⟨h1, h2, h3, h4, hR⟩ | ⟨h1, h2, h3, c, hc, hR⟩ |
    ⟨h1, h2, t, ht, htw, hth, hao, hR⟩ |
    ⟨h1, h2, t, ht, htw, hth, hao, hct, hR⟩ |
    ⟨h1, h2, t, ht, htw, hth, hao, c, hc, hR⟩ <;>
  simp only [renderTrace, renderResult, hR, List.map, Call.kind] <;>
  simp_all <;> decide

/-- Witness for C1: at `envGen` the trace follows the canonical chain and the
successful generation bind is terminal with a defined result. -/
theorem C1_witness :
    (renderTrace envGen 0 0 false).Sublist
      [.checkE, .gen, .create, .bindG, .checkE, .load, .bindC, .bindD] ∧
    (renderResult envGen 0 0 false).isSome = true :=
  ⟨(C1_fallback_chain envGen 0 0 false).1,
   ((C1_fallback_chain envGen 0 0 false).2.2.2.2.1 (by decide)).2.2.2⟩

/-- Claim C2 (refuted — code bug): the claim says every call completes with
some texture bound.  At `envCrash` (package exists on disk, live generation
returns a null thumbnail, package file holds no cached thumbnail) the cached
fallback dereferences the null `ThumbnailMap.Find` result: the call does not
complete (`none`) and no texture was ever bound (no bind call in the trace),
contradicting the claimed invariant. -/
theorem C2_crash_at_failing_input :
    envCrash.packageExists = true ∧
    renderResult envCrash 0 0 false = none ∧
    (renderTrace envCrash 0 0 false).filter CallKind.isBind = [] := by
  decide

/-- Claim C3: for an existing asset whose live generation succeeds with
positive dimensions and whose transient allocation succeeds, the call returns
the generated thumbnail's dimensions with validity true, binds the freshly
generated bitmap, and performs no further fallback (the trace stops at the
generated bind). -/
theorem C3_generation_success (env : Env) (w0 h0 : Int) (v0 : Bool)
    (t : Thumbnail)
    (hname : env.packageName ≠ "None") (hex : env.packageExists = true)
    (hgen : env.genThumb = some t) (hw : 1 ≤ t.width) (hh : 1 ≤ t.height)
    (halloc : env.allocOk t.width t.height = true) :
    renderResult env w0 h0 v0 = some ⟨t.width, t.height, true, .generated t⟩ ∧
    renderTrace env w0 h0 v0 = [.checkE, .gen, .create, .bindG] := by
  rcases render_cases env w0 h0 v0 with
    ⟨h1, hR⟩ | ⟨h1, h2, hR⟩ | ⟨h1, h2, h3, h4, hR⟩ | ⟨h1, h2, h3, c, hc, hR⟩ |
    ⟨h1, h2, t2, ht, htw, hth, hao, hR⟩ |
    ⟨h1, h2, t2, ht, htw, hth, hao, hct, hR⟩ |
    ⟨h1, h2, t2, ht, htw, hth, hao, c, hc, hR⟩ <;>
  simp_all [renderTrace, renderResult, genFail, Call.kind] <;> omega

/-- Witness for C3 at `envGen`: generation succeeds at 128x128 and the result
is the generated bitmap with validity true. -/
theorem C3_witness :
    envGen.packageExists = true ∧ envGen.genThumb = some ⟨128, 128⟩ ∧
    renderResult envGen 0 0 false =
      some ⟨128, 128, true, .generated ⟨128, 128⟩⟩ ∧
    renderTrace envGen 0 0 false = [.checkE, .gen, .create, .bindG] := by
  have h := C3_generation_success envGen 0 0 false ⟨128, 128⟩ (by decide)
    (by decide) (by decide) (by decide) (by decide) (by decide)
  exact ⟨by decide, by decide, h.1, h.2⟩

/-- Claim C4 counterexample: a missing asset with a 64x64 default texture and
zero-initialized outputs yields dimensions (0, 0) — neither (1, 1) nor the
default texture's (64, 64) as the claim states, because the source never
assigns `ImageWidth`/`ImageHeight` on this path. -/
theorem C4_counterexample :
    ∃ r, renderResult envMissing 0 0 false = some r ∧
      r.isValid = false ∧ r.bound = .defaultTex ∧
      envMissing.defaultWidth = 64 ∧ envMissing.defaultHeight = 64 ∧
      r.imageWidth = 0 ∧ r.imageHeight = 0 ∧
      ¬ (r.imageWidth = 1 ∨ r.imageWidth = envMissing.defaultWidth) ∧
      ¬ (r.imageHeight = 1 ∨ r.imageHeight = envMissing.defaultHeight) := by
  decide

/-- Claim C4 (amended): for every asset that does not exist in storage, the
call returns validity false and binds the caller-supplied default texture,
while `ImageWidth`/`ImageHeight` are left unchanged at their caller-passed
values (the cache is never consulted since the second existence check also
fails). -/
theorem C4_missing_asset (env : Env) (w0 h0 : Int) (v0 : Bool)
    (hmiss : env.packageName = "None" ∨ env.packageExists = false) :
    renderResult env w0 h0 v0 = some ⟨w0, h0, false, .defaultTex⟩ := by
  rcases render_cases env w0 h0 v0 with
    ⟨h1, hR⟩ | ⟨h1, h2, hR⟩ | ⟨h1, h2, h3, h4, hR⟩ | ⟨h1, h2, h3, c, hc, hR⟩ |
    ⟨h1, h2, t2, ht, htw, hth, hao, hR⟩ |
    ⟨h1, h2, t2, ht, htw, hth, hao, hct, hR⟩ |
    ⟨h1, h2, t2, ht, htw, hth, hao, c, hc, hR⟩ <;>
  simp_all [renderResult]

/-- Witness for the amended C4 at `envMissing` with caller-passed outputs
(5, 7, true): the result keeps (5, 7) and validity is forced false. -/
theorem C4_witness :
    envMissing.packageExists = false ∧
    renderResult envMissing 5 7 true = some ⟨5, 7, false, .defaultTex⟩ :=
  ⟨by decide, C4_missing_asset envMissing 5 7 true (Or.inr (by decide))⟩

/-- Claim C5: for an existing asset whose live generation fails (null
thumbnail or non-positive dimensions), the dimensions are forced to 1x1
(visible as `CreateTransient(1, 1)` in the trace, attempted even though the
forced validity is false), the generated bind never happens even if
allocation succeeds, control falls through to the cached fallback (the trace
re-checks existence and performs the cached lookup), the default texture is
never reached, and any completing result comes from the cached thumbnail. -/
theorem C5_generation_failure (env : Env) (w0 h0 : Int) (v0 : Bool)
    (hname : env.packageName ≠ "None") (hex : env.packageExists = true)
    (hfail : genFail env) :
    Call.createTransient 1 1 ∈
      (RenderAssetThumbnailToDynamicMaterial env w0 h0 v0).2 ∧
    CallKind.bindG ∉ renderTrace env w0 h0 v0 ∧
    CallKind.bindD ∉ renderTrace env w0 h0 v0 ∧
    CallKind.load ∈ renderTrace env w0 h0 v0 ∧
    (renderTrace env w0 h0 v0).take 4 = [.checkE, .gen, .create, .checkE] ∧
    (∀ r, renderResult env w0 h0 v0 = some r →
      ∃ c, env.cachedThumb = some c ∧
        r = ⟨c.width, c.height, true, .cachedTex c⟩) := by
  rcases render_cases env w0 h0 v0 with
    ⟨h1, hR⟩ | ⟨h1, h2, hR⟩ | ⟨h1, h2, h3, h4, hR⟩ | ⟨h1, h2, h3, c, hc, hR⟩ |
    ⟨h1, h2, t2, ht, htw, hth, hao, hR⟩ |
    ⟨h1, h2, t2, ht, htw, hth, hao, hct, hR⟩ |
    ⟨h1, h2, t2, ht, htw, hth, hao, c, hc, hR⟩ <;>
  simp_all [renderTrace, renderResult, genFail, Call.kind] <;> omega

/-- Witness for C5 at `envGenFailCached` (generation returns null, 32x32
cached thumbnail available): allocation is attempted at 1x1, the cached
lookup runs, and the result is the 32x32 cached thumbnail with validity
true. -/
theorem C5_witness :
    envGenFailCached.packageExists = true ∧
    Call.createTransient 1 1 ∈
      (RenderAssetThumbnailToDynamicMaterial envGenFailCached 0 0 false).2 ∧
    CallKind.load ∈ renderTrace envGenFailCached 0 0 false ∧
    renderResult envGenFailCached 0 0 false =
      some ⟨32, 32, true, .cachedTex ⟨32, 32⟩⟩ := by
  have h := C5_generation_failure envGenFailCached 0 0 false (by decide)
    (by decide) (Or.inl (by decide))
  exact ⟨by decide, h.1, h.2.2.2.1, by decide⟩

/-- Claim C6: re-running the call against the same engine state, feeding back
the first call's outputs as the caller-passed by-reference values, yields the
same dimensions and validity flag (nothing is cached across calls — the model
takes no history argument, so each invocation re-resolves from the same
`Env`). -/
theorem C6_idempotent (env : Env) (w0 h0 : Int) (v0 : Bool) (r : RenderOut)
    (h : renderResult env w0 h0 v0 = some r) :
    renderResult env r.imageWidth r.imageHeight r.isValid = some r := by
  obtain ⟨rw, rh, rv, rb⟩ := r
  rcases render_cases env w0 h0 v0 with
    ⟨h1, hR⟩ | ⟨h1, h2, hR⟩ | ⟨h1, h2, h3, h4, hR⟩ | ⟨h1, h2, h3, c, hc, hR⟩ |
    ⟨h1, h2, t2, ht, htw, hth, hao, hR⟩ |
    ⟨h1, h2, t2, ht, htw, hth, hao, hct, hR⟩ |
    ⟨h1, h2, t2, ht, htw, hth, hao, c, hc, hR⟩ <;>
  rcases render_cases env rw rh rv with
    ⟨g1, hS⟩ | ⟨g1, g2, hS⟩ | ⟨g1, g2, g3, g4, hS⟩ | ⟨g1, g2, g3, d, gd, hS⟩ |
    ⟨g1, g2, s2, gt2, gtw, gth, gao, hS⟩ |
    ⟨g1, g2, s2, gt2, gtw, gth, gao, gct, hS⟩ |
    ⟨g1, g2, s2, gt2, gtw, gth, gao, d, gd, hS⟩ <;>
  simp_all [renderResult, genFail] <;> try omega

/-- Witness for C6 at `envGen`: the first call yields 128x128/true, and the
second call (outputs fed back) yields the identical result. -/
theorem C6_witness :
    renderResult envGen 0 0 false =
      some ⟨128, 128, true, .generated ⟨128, 128⟩⟩ ∧
    renderResult envGen 128 128 true =
      some ⟨128, 128, true, .generated ⟨128, 128⟩⟩ :=
  ⟨by decide,
   C6_idempotent envGen 0 0 false ⟨128, 128, true, .generated ⟨128, 128⟩⟩
     (by decide)⟩

/-- Claim C7: in the cached fallback path of both thumbnail functions the
`ThumbnailMap.Find` result is dereferenced without a not-found check.  At
`envCrash` the package exists on disk but its package file holds no cached
thumbnail for the object: both functions reach the cached lookup and then hit
the null dereference (`none`), so totality under the precondition "package
exists" fails without also assuming the cache lookup succeeds. -/
theorem C7_unchecked_cache_deref :
    envCrash.packageExists = true ∧ envCrash.cachedThumb = none ∧
    CallKind.load ∈ renderTrace envCrash 0 0 false ∧
    renderResult envCrash 0 0 false = none ∧
    CallKind.load ∈
      ((AddExistingAssetThumbnailToDynamicMaterial envCrash 0 0 false).2.map
        Call.kind) ∧
    (AddExistingAssetThumbnailToDynamicMaterial envCrash 0 0 false).1 =
      none := by
  decide

/-- Claim C8: whenever `AddExistingAssetThumbnailToDynamicMaterial`
completes, `IsValid` still holds the caller-passed value (it is never
assigned), the default-texture path leaves all three numeric/flag outputs
unchanged, and the dimensions can only have changed on the path where the
package name is not "None" and the package exists. -/
theorem C8_frame_conditions (env : Env) (w0 h0 : Int) (v0 : Bool)
    (r : RenderOut)
    (h : (AddExistingAssetThumbnailToDynamicMaterial env w0 h0 v0).1 =
      some r) :
    r.isValid = v0 ∧
    ((env.packageName = "None" ∨ env.packageExists = false) →
      r = ⟨w0, h0, v0, .defaultTex⟩) ∧
    (¬ (r.imageWidth = w0 ∧ r.imageHeight = h0) →
      ¬ env.packageName = "None" ∧ env.packageExists = true) := by
  obtain ⟨rw, rh, rv, rb⟩ := r
  obtain ⟨pn, pe, gt, ao, ct, dw, dh⟩ := env
  by_cases hpn : pn = "None"
  · simp_all [AddExistingAssetThumbnailToDynamicMaterial]
  · cases pe
    · simp_all [AddExistingAssetThumbnailToDynamicMaterial]
    · rcases ct with _ | c <;>
        simp_all [AddExistingAssetThumbnailToDynamicMaterial]

/-- Witness for C8 at `envGen` with caller-passed `IsValid = true`: the call
completes with the cached 32x32 thumbnail and the flag still reads the
caller's value. -/
theorem C8_witness :
    (AddExistingAssetThumbnailToDynamicMaterial envGen 0 0 true).1 =
      some ⟨32, 32, true, .cachedTex ⟨32, 32⟩⟩ ∧
    (⟨32, 32, true, .cachedTex ⟨32, 32⟩⟩ : RenderOut).isValid = true :=
  ⟨by decide,
   (C8_frame_conditions envGen 0 0 true ⟨32, 32, true, .cachedTex ⟨32, 32⟩⟩
     (by decide)).1⟩

/-- The loop of `RegisterMetadataTags`, characterized: the final set is the
initial set extended by a duplicate-free block of exactly those input tags
that are not "None" and were not already present. -/
theorem registerTags_spec (tags : List FName) (g : List FName) :
    ∃ added, RegisterMetadataTags tags g = g ++ added ∧ added.Nodup ∧
      (∀ x, x ∈ added ↔ (x ∈ tags ∧ x.isNone = false ∧ x ∉ g)) := by
  induction tags generalizing g with
  | nil => exact ⟨[], by simp [RegisterMetadataTags], List.nodup_nil, by simp⟩
  | cons t ts ih =>
    by_cases hc : ¬ t.isNone ∧ t ∉ g
    · obtain ⟨added, h1, h2, h3⟩ := ih (g ++ [t])
      refine ⟨t :: added, ?_, ?_, ?_⟩
      · rw [RegisterMetadataTags, List.foldl_cons, if_pos hc]
        rw [RegisterMetadataTags] at h1
        rw [h1, List.append_assoc]
        rfl
      · refine List.nodup_cons.mpr ⟨fun hmem => ?_, h2⟩
        have := (h3 t).mp hmem
        simp at this
      · intro x
        constructor
        · intro hx0
          rcases List.mem_cons.mp hx0 with rfl | hx
          · exact ⟨List.mem_cons_self _ _, by simpa using hc.1, hc.2⟩
          · obtain ⟨hx1, hx2, hx3⟩ := (h3 x).mp hx
            exact ⟨List.mem_cons_of_mem _ hx1, hx2,
              fun hg => hx3 (List.mem_append_left _ hg)⟩
        · rintro ⟨hx1, hx2, hx3⟩
          rcases List.mem_cons.mp hx1 with rfl | hx1
          · exact List.mem_cons_self _ _
          · by_cases hxt : x = t
            · subst hxt; exact List.mem_cons_self _ _
            · refine List.mem_cons_of_mem _ ((h3 x).mpr ⟨hx1, hx2, ?_⟩)
              simp [hxt, hx3]
    · obtain ⟨added, h1, h2, h3⟩ := ih g
      refine ⟨added, ?_, h2, ?_⟩
      · rw [RegisterMetadataTags, List.foldl_cons, if_neg hc]
        exact h1
      · intro x
        rw [h3 x]
        constructor
        · rintro ⟨hx1, hx2, hx3⟩
          exact ⟨List.mem_cons_of_mem _ hx1, hx2, hx3⟩
        · rintro ⟨hx1, hx2, hx3⟩
          rcases List.mem_cons.mp hx1 with rfl | hx1
          · exfalso; apply hc
            constructor
            · simp [hx2]
            · exact hx3
          · exact ⟨hx1, hx2, hx3⟩

/-- Claim C9: after `RegisterMetadataTags`, the global tag set is its prior
contents extended by exactly the non-"None" input tags not already present,
each added once (the added block is duplicate-free); membership in the result
is membership in the prior set or being a non-"None" input tag, nothing
previously present is removed (the prior set stays as the result's initial
segment), and set semantics is preserved (a duplicate-free prior set stays
duplicate-free). -/
theorem C9_register_metadata_tags (tags global : List FName) :
    (∃ added, RegisterMetadataTags tags global = global ++ added ∧
      added.Nodup ∧
      (∀ x, x ∈ added ↔ (x ∈ tags ∧ x.isNone = false ∧ x ∉ global))) ∧
    (∀ x, x ∈ RegisterMetadataTags tags global ↔
      (x ∈ global ∨ (x ∈ tags ∧ x.isNone = false))) ∧
    (global.Nodup → (RegisterMetadataTags tags global).Nodup) := by
  obtain ⟨added, h1, h2, h3⟩ := registerTags_spec tags global
  refine ⟨⟨added, h1, h2, h3⟩, ?_, ?_⟩
  · intro x
    rw [h1, List.mem_append, h3 x]
    by_cases hg : x ∈ global <;> simp [hg]
  · intro hnd
    rw [h1]
    exact List.nodup_append.mpr
      ⟨hnd, h2, fun x hx hax => ((h3 x).mp hax).2.2 hx⟩

/-- Witness for C9 on concrete lists: registering ["a", "None", "a", "b"]
onto the duplicate-free set ["b", "c"] keeps the result duplicate-free (it is
["b", "c", "a"]). -/
theorem C9_witness :
    (RegisterMetadataTags ["a", "None", "a", "b"] ["b", "c"]).Nodup :=
  (C9_register_metadata_tags ["a", "None", "a", "b"] ["b", "c"]).2.2
    (by decide)

/-- A client whose widget is not under the mouse is skipped by the loop. -/
theorem viewportLoop_cons_skip (c : VPClient) (rest : List VPClient)
    (o0 d0 : Vec3) (h : c.widgetMatches = false) :
    viewportLoop (c :: rest) o0 d0 = viewportLoop rest o0 d0 := by
  simp [viewportLoop, h]

/-- A matching client whose `CalcSceneView` is null is skipped and the loop
continues with the remaining clients. -/
theorem viewportLoop_cons_noview (c : VPClient) (rest : List VPClient)
    (o0 d0 : Vec3) (hm : c.widgetMatches = true) (hsv : c.sceneView = none) :
    viewportLoop (c :: rest) o0 d0 = viewportLoop rest o0 d0 := by
  simp [viewportLoop, hm, hsv]

/-- A matching client with a computable scene view terminates the loop with
the deprojected mouse position. -/
theorem viewportLoop_cons_hit (c : VPClient) (rest : List VPClient)
    (o0 d0 : Vec3) (sv : SceneView) (hm : c.widgetMatches = true)
    (hsv : c.sceneView = some sv) :
    viewportLoop (c :: rest) o0 d0 =
      (true, sv.deprojOrigin, sv.deprojDir) := by
  simp [viewportLoop, hm, hsv]

/-- The viewport-client loop returns true exactly when some client matches
the widget under the mouse and yields a scene view; on false the outputs are
untouched, and on true they are the deprojection of some matching client's
scene view. -/
theorem viewportLoop_spec (cs : List VPClient) (o0 d0 : Vec3) :
    ((viewportLoop cs o0 d0).1 = true ↔
      ∃ c ∈ cs, c.widgetMatches = true ∧ c.sceneView.isSome = true) ∧
    ((viewportLoop cs o0 d0).1 = false →
      (viewportLoop cs o0 d0).2 = (o0, d0)) ∧
    ((viewportLoop cs o0 d0).1 = true →
      ∃ c ∈ cs, c.widgetMatches = true ∧
        ∃ sv, c.sceneView = some sv ∧
          (viewportLoop cs o0 d0).2 = (sv.deprojOrigin, sv.deprojDir)) := by
  induction cs with
  | nil => simp [viewportLoop]
  | cons c rest ih =>
    obtain ⟨ih1, ih2, ih3⟩ := ih
    cases hm : c.widgetMatches
    · rw [viewportLoop_cons_skip c rest o0 d0 hm]
      refine ⟨?_, ih2, ?_⟩
      · rw [ih1]
        constructor
        · rintro ⟨d, hd, h⟩; exact ⟨d, List.mem_cons_of_mem _ hd, h⟩
        · rintro ⟨d, hd, h⟩
          rcases List.mem_cons.mp hd with rfl | hd
          · rw [hm] at h; exact absurd h.1 (by simp)
          · exact ⟨d, hd, h⟩
      · intro ht
        obtain ⟨d, hd, hdm, sv, hsv, heq⟩ := ih3 ht
        exact ⟨d, List.mem_cons_of_mem _ hd, hdm, sv, hsv, heq⟩
    · rcases hsv : c.sceneView with _ | sv
      · rw [viewportLoop_cons_noview c rest o0 d0 hm hsv]
        refine ⟨?_, ih2, ?_⟩
        · rw [ih1]
          constructor
          · rintro ⟨d, hd, h⟩; exact ⟨d, List.mem_cons_of_mem _ hd, h⟩
          · rintro ⟨d, hd, h⟩
            rcases List.mem_cons.mp hd with rfl | hd
            · rw [hsv] at h; exact absurd h.2 (by simp)
            · exact ⟨d, hd, h⟩
        · intro ht
          obtain ⟨d, hd, hdm, sv2, hsv2, heq⟩ := ih3 ht
          exact ⟨d, List.mem_cons_of_mem _ hd, hdm, sv2, hsv2, heq⟩
      · rw [viewportLoop_cons_hit c rest o0 d0 sv hm hsv]
        refine ⟨?_, by simp, ?_⟩
        · simp only [true_iff]
          exact ⟨c, List.mem_cons_self _ _, hm, by simp [hsv]⟩
        · intro _
          exact ⟨c, List.mem_cons_self _ _, hm, sv, hsv, rfl⟩

/-- Claim C10: `GetEditorViewportMousePositionWS` returns true exactly when
the widget under the mouse is an `SViewport` and some level-editor viewport
client matches it with a computable scene view; on true the outputs are the
deprojection of such a client's scene view, and on false the by-reference
outputs `WorldOrigin`/`WorldDirection` are never written (they keep the
caller-passed values). -/
theorem C10_viewport_pick (env : ViewportEnv) (o0 d0 : Vec3) :
    ((GetEditorViewportMousePositionWS env o0 d0).1 = true ↔
      env.widgetType = "SViewport" ∧
      ∃ c ∈ env.clients, c.widgetMatches = true ∧
        c.sceneView.isSome = true) ∧
    ((GetEditorViewportMousePositionWS env o0 d0).1 = false →
      (GetEditorViewportMousePositionWS env o0 d0).2 = (o0, d0)) ∧
    ((GetEditorViewportMousePositionWS env o0 d0).1 = true →
      ∃ c ∈ env.clients, c.widgetMatches = true ∧
        ∃ sv, c.sceneView = some sv ∧
          (GetEditorViewportMousePositionWS env o0 d0).2 =
            (sv.deprojOrigin, sv.deprojDir)) := by
  obtain ⟨hl1, hl2, hl3⟩ := viewportLoop_spec env.clients o0 d0
  by_cases hw : env.widgetType = "SViewport"
  · simp only [GetEditorViewportMousePositionWS, hw, ne_eq,
      not_true_eq_false, if_false]
    exact ⟨by rw [hl1]; simp [hw], hl2, hl3⟩
  · simp only [GetEditorViewportMousePositionWS, ne_eq, hw,
      not_false_eq_true, if_true]
    simp [hw]

/-- Witness for C10 at `vpEnvHit`: the third client (matching, with a scene
view) wins, the function returns true, and the outputs hold that client's
deprojection. -/
theorem C10_witness :
    (GetEditorViewportMousePositionWS vpEnvHit ⟨0, 0, 0⟩ ⟨0, 0, 0⟩).1 =
      true ∧
    (GetEditorViewportMousePositionWS vpEnvHit ⟨0, 0, 0⟩ ⟨0, 0, 0⟩).2 =
      (⟨1, 2, 3⟩, ⟨4, 5, 6⟩) := by
  have h := C10_viewport_pick vpEnvHit ⟨0, 0, 0⟩ ⟨0, 0, 0⟩
  exact ⟨h.1.mpr (by decide), by decide⟩
